import Mathlib

/-!
Shallow embedding of `src/statsig.py` (charnley/statsig).

The Python code computes error statistics over numpy float arrays.  We model
one-dimensional arrays as `List ℝ` and float arithmetic as real arithmetic.
The single place where IEEE-754 semantics is observable in the claims is the
square root of a negative radicand (numpy returns NaN and propagates it); we
model that by an `Option ℝ` valued square root (`none` = NaN) exactly where
the source can hit a negative radicand (`mae`, and the undefined Pearson
correlation in the driver).  `rmse` guards `N < 9`, so after the guard all of
its radicands are provably non-negative and plain `Real.sqrt` is faithful.
-/

namespace Statsig

noncomputable section

/-- Arithmetic mean of a list, as numpy's `.mean()`: sum divided by length. -/
def mean (l : List ℝ) : ℝ := l.sum / (l.length : ℝ)

/-- Elementwise difference `X - Y` of two numpy arrays (equal lengths assumed
by every caller in the source; numpy would raise on a shape mismatch). -/
def sub (X Y : List ℝ) : List ℝ := List.zipWith (fun a b => a - b) X Y

/-- The factor `1.96*sqrt(2)/sqrt(N-1)` appearing in the lower/upper error
formulas of both `rmse` (lines 33-34) and `mae` (lines 62-63) of
`src/statsig.py`; the spec calls it `k`. -/
def kfac (N : ℕ) : ℝ := 1.96 * Real.sqrt 2 / Real.sqrt ((N : ℝ) - 1)

/-- Root-mean-square error, `src/statsig.py` lines 23-36.  `N, = X.shape` is
the length of `X`; if `N < 9` the Python prints a message and returns `None`
(no numeric triple), modelled as `none`.  Otherwise it returns
`rmse = sqrt(mean((X-Y)^2))` together with
`le = rmse*(1 - sqrt(1-k))` and `ue = rmse*(sqrt(1+k) - 1)`. -/
def rmse (X Y : List ℝ) : Option (ℝ × ℝ × ℝ) :=
  if X.length < 9 then none
  else
    some (Real.sqrt (mean ((sub X Y).map fun d => d ^ 2)),
      Real.sqrt (mean ((sub X Y).map fun d => d ^ 2)) *
        (1 - Real.sqrt (1 - kfac X.length)),
      Real.sqrt (mean ((sub X Y).map fun d => d ^ 2)) *
        (Real.sqrt (1 + kfac X.length) - 1))

/-- IEEE float square root: on a negative argument numpy's `np.sqrt` returns
NaN, modelled as `none`; on a non-negative argument it is the real square
root. -/
def fsqrt (x : ℝ) : Option ℝ := if 0 ≤ x then some (Real.sqrt x) else none

/-- Mean absolute error, `src/statsig.py` lines 56-64.  There is no guard on
`N`: the function always returns the triple
`(mae, mae*(1 - sqrt(1-k)), mae*(sqrt(1+k) - 1))` with
`mae = mean(|X-Y|)`.  The radicand `1-k` is negative for `2 ≤ N ≤ 8`, in
which case numpy's square root is NaN and the NaN propagates through the
surrounding arithmetic; hence the lower and upper error slots are
`Option ℝ` with `none` standing for NaN. -/
def mae (X Y : List ℝ) : ℝ × Option ℝ × Option ℝ :=
  (mean ((sub X Y).map fun d => |d|),
   (fsqrt (1 - kfac X.length)).map
     (fun s => mean ((sub X Y).map fun d => |d|) * (1 - s)),
   (fsqrt (1 + kfac X.length)).map
     (fun s => mean ((sub X Y).map fun d => |d|) * (s - 1)))

/-- Population standard deviation helper, `src/statsig.py` lines 94-107:
`sqrt(sum((X - X_hat)^2)/N)` for the already-computed mean `X_hat` and the
count `N` supplied by the caller. -/
def stdevp (X : List ℝ) (X_hat : ℝ) (N : ℕ) : ℝ :=
  Real.sqrt ((X.map fun x => (x - X_hat) ^ 2).sum / (N : ℝ))

/-- Mean (signed) error, `src/statsig.py` lines 83-91: the mean of `X - Y`
paired with the symmetric half-width `1.96 * s_N / sqrt(N)` where `s_N` is
`stdevp` of the error series about its mean. -/
def me (X Y : List ℝ) : ℝ × ℝ :=
  (mean (sub X Y),
   1.96 * stdevp (sub X Y) (mean (sub X Y)) X.length / Real.sqrt (X.length : ℝ))

/-- Pearson correlation coefficient of two series, the `[0][1]` entry of
`np.corrcoef` used at line 192 of `src/statsig.py`.  numpy computes
`cov(X,Y)/sqrt(var(X)*var(Y))`; the `1/(N-1)` normalisations cancel, leaving
centred sums.  When `var(X)*var(Y) = 0` (a constant series, or `N = 1` where
all centred sums vanish) the quotient is `0/0`, i.e. NaN, modelled as
`none`. -/
def pearson (X Y : List ℝ) : Option ℝ :=
  if ((X.map fun a => (a - mean X) ^ 2).sum) *
     ((Y.map fun b => (b - mean Y) ^ 2).sum) = 0 then none
  else
    some ((List.zipWith (fun a b => (a - mean X) * (b - mean Y)) X Y).sum /
      Real.sqrt (((X.map fun a => (a - mean X) ^ 2).sum) *
        ((Y.map fun b => (b - mean Y) ^ 2).sum)))

/-- Bound selection of the pairwise loop, `src/statsig.py` lines 195-200:
if `rmse_i > rmse_j` then `lower = lower_error[i]`, `upper = upper_error[j]`,
otherwise `lower = lower_error[j]`, `upper = upper_error[i]`.  Returns the
pair `(lower, upper)`. -/
def pairBounds (rmse_i rmse_j lower_i upper_i lower_j upper_j : ℝ) : ℝ × ℝ :=
  if rmse_j < rmse_i then (lower_i, upper_j) else (lower_j, upper_i)

/-- Compatible error, `src/statsig.py` line 201:
`sqrt(upper**2 + lower**2 - 2.0*r*upper*lower)`. -/
def comp_error (upper lower r : ℝ) : ℝ :=
  Real.sqrt (upper ^ 2 + lower ^ 2 - 2.0 * r * upper * lower)

/-- The compatible error computed by the driver for one pair, with the
possibly-NaN correlation coefficient threaded through: a NaN `r` makes the
whole expression NaN (`none`). -/
def compPair (rmse_i rmse_j lower_i upper_i lower_j upper_j : ℝ)
    (r : Option ℝ) : Option ℝ :=
  r.map fun c =>
    comp_error (pairBounds rmse_i rmse_j lower_i upper_i lower_j upper_j).2
      (pairBounds rmse_i rmse_j lower_i upper_i lower_j upper_j).1 c

/-- The boolean printed under the column `same?`, `src/statsig.py` line 202:
`significance = abs(rmse_i - rmse_j) < comp_error`.  It is True exactly when
the difference is NOT statistically significant.  An IEEE comparison against
NaN is false, so a NaN compatible error yields `False`. -/
def significance (rmse_i rmse_j : ℝ) (comp : Option ℝ) : Prop :=
  match comp with
  | none => False
  | some c => |rmse_i - rmse_j| < c

/-- The synthetic null method appended by the driver, `src/statsig.py` lines
138-144: a constant series holding the mean of the reference on every
entry. -/
def nullMethod (ref : List ℝ) : List ℝ := ref.map fun _ => mean ref

/-- The reference series of the end-to-end scenario in the spec. -/
def refList : List ℝ := [1, 2, 3, 4, 5, 6, 7, 8, 9, 10]

/-- Candidate A of the scenario: the reference plus the constant 1. -/
def listA : List ℝ := [2, 3, 4, 5, 6, 7, 8, 9, 10, 11]

/-- Candidate C of the scenario: the reference plus the constant 5. -/
def listC : List ℝ := [6, 7, 8, 9, 10, 11, 12, 13, 14, 15]

/-!
Helper lemmas shared by several claim theorems.
-/

/-- The factor `k` is non-negative for every `N`. -/
theorem kfac_nonneg (N : ℕ) : 0 ≤ kfac N := by
  rw [kfac]; positivity

/-- For `N ≥ 9` the factor `k` is at most 1, so the lower-error radicand
`1 - k` of `rmse`/`mae` is non-negative. -/
theorem kfac_le_one {N : ℕ} (h : 9 ≤ N) : kfac N ≤ 1 := by
  have hcast : (9 : ℝ) ≤ (N : ℝ) := by exact_mod_cast h
  have hden : 0 < Real.sqrt ((N : ℝ) - 1) := Real.sqrt_pos.mpr (by linarith)
  rw [kfac, div_le_one hden]
  have hs2 : Real.sqrt 2 ^ 2 = 2 := Real.sq_sqrt (by norm_num)
  rw [show (1.96 : ℝ) * Real.sqrt 2 = Real.sqrt ((1.96 * Real.sqrt 2) ^ 2) by
    rw [Real.sqrt_sq (by positivity)]]
  apply Real.sqrt_le_sqrt
  rw [mul_pow, hs2]; nlinarith

/-- Closed form of the factor `k` at `N = 10`, the scenario length. -/
theorem kfac_ten_eq : kfac 10 = 1.96 * Real.sqrt 2 / 3 := by
  rw [kfac, show ((10 : ℕ) : ℝ) - 1 = 3 ^ 2 by norm_num,
    Real.sqrt_sq (by norm_num : (0 : ℝ) ≤ 3)]

/-- At `N = 10` the factor `k` is strictly positive. -/
theorem kfac_ten_pos : 0 < kfac 10 := by
  rw [kfac_ten_eq]
  have h2 : 0 < Real.sqrt 2 := Real.sqrt_pos.mpr (by norm_num)
  positivity

/-- At `N = 10` the factor `k` is strictly below 1 (since `1.96·√2 < 3`). -/
theorem kfac_ten_lt_one : kfac 10 < 1 := by
  rw [kfac_ten_eq, div_lt_one (by norm_num)]
  have hs2 : Real.sqrt 2 ^ 2 = 2 := Real.sq_sqrt (by norm_num)
  nlinarith [Real.sqrt_nonneg 2]

/-- For `2 ≤ N ≤ 8` the factor `k` exceeds 1, so the lower-error radicand
`1 - k` is negative (`(1.96·√2)² = 7.6832 > N - 1`). -/
theorem one_lt_kfac {N : ℕ} (h2 : 2 ≤ N) (h8 : N ≤ 8) : 1 < kfac N := by
  have hc2 : (2 : ℝ) ≤ (N : ℝ) := by exact_mod_cast h2
  have hc8 : (N : ℝ) ≤ 8 := by exact_mod_cast h8
  have hden : 0 < Real.sqrt ((N : ℝ) - 1) := Real.sqrt_pos.mpr (by linarith)
  rw [kfac, lt_div_iff hden, one_mul]
  have hub : Real.sqrt ((N : ℝ) - 1) ^ 2 = (N : ℝ) - 1 := Real.sq_sqrt (by linarith)
  have hs2 : Real.sqrt 2 ^ 2 = 2 := Real.sq_sqrt (by norm_num)
  nlinarith [Real.sqrt_nonneg ((N : ℝ) - 1), Real.sqrt_nonneg 2,
    mul_nonneg (Real.sqrt_nonneg ((N : ℝ) - 1)) (Real.sqrt_nonneg 2)]

/-- Quadratic mean dominates arithmetic mean of absolute values: the root
mean square of a list is at least the mean of its absolute values
(Cauchy-Schwarz). -/
theorem mean_abs_le_sqrt_mean_sq (l : List ℝ) :
    mean (l.map fun d => |d|) ≤ Real.sqrt (mean (l.map fun d => d ^ 2)) := by
  rcases Nat.eq_zero_or_pos l.length with h0 | hpos
  · rw [List.length_eq_zero] at h0
    subst h0
    simp [mean]
  · have hcs : ((l.map fun d => |d|).sum) ^ 2 ≤
        (l.length : ℝ) * ((l.map fun d => d ^ 2).sum) := by
      have habs : (l.map fun d => |d|).sum = ∑ i : Fin l.length, |l.get i| := by
        rw [← List.ofFn_get_eq_map, Fin.sum_ofFn]
      have hsq : (l.map fun d => d ^ 2).sum = ∑ i : Fin l.length, (l.get i) ^ 2 := by
        rw [← List.ofFn_get_eq_map, Fin.sum_ofFn]
      rw [habs, hsq]
      have hkey := sq_sum_le_card_mul_sum_sq (s := Finset.univ)
        (f := fun i : Fin l.length => |l.get i|)
      simpa [sq_abs] using hkey
    have hn : (0 : ℝ) < (l.length : ℝ) := by exact_mod_cast hpos
    have hS : (0 : ℝ) ≤ (l.map fun d => |d|).sum :=
      List.sum_nonneg (by intro x hx; rcases List.mem_map.mp hx with ⟨d, _, rfl⟩; positivity)
    have hQ : (0 : ℝ) ≤ (l.map fun d => d ^ 2).sum :=
      List.sum_nonneg (by intro x hx; rcases List.mem_map.mp hx with ⟨d, _, rfl⟩; positivity)
    rw [mean, mean, List.length_map, List.length_map]
    rw [Real.le_sqrt (by positivity) (div_nonneg hQ (le_of_lt hn))]
    rw [div_pow, div_le_div_iff (by positivity) hn]
    nlinarith [hcs]

/-- Evaluation: `rmse` of the reference against itself is `(0, 0, 0)`. -/
theorem eval_rmse_ref_ref : rmse refList refList = some (0, 0, 0) := by
  norm_num [rmse, refList, sub, mean]

/-- Evaluation: `rmse` of candidate C (reference + 5) against the reference. -/
theorem eval_rmse_listC_ref :
    rmse listC refList = some (5, 5 * (1 - Real.sqrt (1 - kfac 10)),
      5 * (Real.sqrt (1 + kfac 10) - 1)) := by
  have h5 : Real.sqrt 25 = 5 := by
    rw [show (25 : ℝ) = 5 ^ 2 by norm_num, Real.sqrt_sq (by norm_num)]
  norm_num [rmse, listC, refList, sub, mean, h5]

/-- Evaluation: `rmse` of candidate A (reference + 1) against the reference. -/
theorem eval_rmse_listA_ref :
    rmse listA refList = some (1, 1 - Real.sqrt (1 - kfac 10),
      Real.sqrt (1 + kfac 10) - 1) := by
  norm_num [rmse, listA, refList, sub, mean]

/-- Evaluation: the correlation of the reference with candidate C is 1. -/
theorem eval_pearson_ref_listC : pearson refList listC = some 1 := by
  have h1 : Real.sqrt 27225 = 165 := by
    rw [show (27225 : ℝ) = 165 ^ 2 by norm_num, Real.sqrt_sq (by norm_num)]
  have h2 : Real.sqrt 4 = 2 := by
    rw [show (4 : ℝ) = 2 ^ 2 by norm_num, Real.sqrt_sq (by norm_num)]
  norm_num [pearson, refList, listC, mean, h1, h2]

/-- Evaluation: the correlation of the reference with the constant null
method is undefined (NaN), because the null series has zero variance. -/
theorem eval_pearson_ref_null : pearson refList (nullMethod refList) = none := by
  norm_num [pearson, refList, nullMethod, mean]

/-- Evaluation: `rmse` of the null method against the reference. -/
theorem eval_rmse_null_ref :
    rmse (nullMethod refList) refList =
      some (Real.sqrt 8.25, Real.sqrt 8.25 * (1 - Real.sqrt (1 - kfac 10)),
        Real.sqrt 8.25 * (Real.sqrt (1 + kfac 10) - 1)) := by
  norm_num [rmse, nullMethod, refList, sub, mean]

/-- Evaluation: `mae` of candidate A against the reference. -/
theorem eval_mae_listA_ref :
    mae listA refList =
      (1, some (1 - Real.sqrt (1 - kfac 10)), some (Real.sqrt (1 + kfac 10) - 1)) := by
  have hk0 : (0 : ℝ) ≤ 1 - kfac 10 := by linarith [kfac_ten_lt_one]
  have hk1 : (0 : ℝ) ≤ 1 + kfac 10 := by linarith [kfac_ten_pos]
  norm_num [mae, fsqrt, hk0, hk1, sub, mean, listA, refList]

/-- Evaluation: `me` of candidate A against the reference is `(1, 0)`: the
error series is the constant 1, whose population standard deviation is 0. -/
theorem eval_me_listA_ref : me listA refList = (1, 0) := by
  norm_num [me, stdevp, sub, mean, listA, refList]

/-!
Claim theorems.
-/

/-- C1: for every pair (i, j), the driver takes `lower` from the method with
the larger RMSE and `upper` from the other method, computes
`comp = sqrt(upper^2 + lower^2 - 2*r*upper*lower)`, and declares the pair
not statistically significant (boolean True in the `same?` column) exactly
when `|rmse_i - rmse_j| < comp`. -/
theorem pairwise_rule_spec (ri rj li ui lj uj r : ℝ) :
    (rj < ri → pairBounds ri rj li ui lj uj = (li, uj)) ∧
    (ri < rj → pairBounds ri rj li ui lj uj = (lj, ui)) ∧
    (significance ri rj (compPair ri rj li ui lj uj (some r)) ↔
      |ri - rj| <
        Real.sqrt ((pairBounds ri rj li ui lj uj).2 ^ 2 +
          (pairBounds ri rj li ui lj uj).1 ^ 2 -
          2.0 * r * (pairBounds ri rj li ui lj uj).2 *
            (pairBounds ri rj li ui lj uj).1)) := by
  refine ⟨fun h => by rw [pairBounds, if_pos h], fun h => by
    rw [pairBounds, if_neg (by intro hc; exact absurd h (not_lt.mpr (le_of_lt hc)))], ?_⟩
  simp [significance, compPair, comp_error]

/-- Witness for C1 at the concrete input `ri = 2 > rj = 1`, `r = 0`. -/
theorem pairwise_rule_spec_witness :
    pairBounds 2 1 3 4 5 6 = (3, 6) ∧
    (significance 2 1 (compPair 2 1 3 4 5 6 (some 0)) ↔
      |(2 : ℝ) - 1| <
        Real.sqrt ((pairBounds 2 1 3 4 5 6).2 ^ 2 + (pairBounds 2 1 3 4 5 6).1 ^ 2 -
          2.0 * 0 * (pairBounds 2 1 3 4 5 6).2 * (pairBounds 2 1 3 4 5 6).1)) :=
  ⟨(pairwise_rule_spec 2 1 3 4 5 6 0).1 (by norm_num),
   (pairwise_rule_spec 2 1 3 4 5 6 0).2.2⟩

/-- C2: for equal-length series with `N ≥ 9`, `rmse` returns the triple
`(sqrt(mean((X-Y)^2)), rmse*(1 - sqrt(1-k)), rmse*(sqrt(1+k) - 1))` with
`k = 1.96*sqrt(2)/sqrt(N-1)`, and all three components are non-negative
real numbers. -/
theorem rmse_formula_spec (X Y : List ℝ) (_hlen : X.length = Y.length)
    (h9 : 9 ≤ X.length) :
    ∃ r le ue, rmse X Y = some (r, le, ue) ∧
      r = Real.sqrt (mean ((sub X Y).map fun d => d ^ 2)) ∧
      le = r * (1 - Real.sqrt (1 - 1.96 * Real.sqrt 2 / Real.sqrt ((X.length : ℝ) - 1))) ∧
      ue = r * (Real.sqrt (1 + 1.96 * Real.sqrt 2 / Real.sqrt ((X.length : ℝ) - 1)) - 1) ∧
      0 ≤ r ∧ 0 ≤ le ∧ 0 ≤ ue := by
  have hk0 : 0 ≤ kfac X.length := kfac_nonneg X.length
  have hk1 : kfac X.length ≤ 1 := kfac_le_one h9
  have hsl : Real.sqrt (1 - kfac X.length) ≤ 1 := by
    calc Real.sqrt (1 - kfac X.length) ≤ Real.sqrt 1 := Real.sqrt_le_sqrt (by linarith)
    _ = 1 := Real.sqrt_one
  have hsu : 1 ≤ Real.sqrt (1 + kfac X.length) := by
    calc (1 : ℝ) = Real.sqrt 1 := Real.sqrt_one.symm
    _ ≤ Real.sqrt (1 + kfac X.length) := Real.sqrt_le_sqrt (by linarith)
  refine ⟨Real.sqrt (mean ((sub X Y).map fun d => d ^ 2)),
    Real.sqrt (mean ((sub X Y).map fun d => d ^ 2)) * (1 - Real.sqrt (1 - kfac X.length)),
    Real.sqrt (mean ((sub X Y).map fun d => d ^ 2)) * (Real.sqrt (1 + kfac X.length) - 1),
    by rw [rmse, if_neg (not_lt.mpr h9)], rfl, by rw [kfac], by rw [kfac],
    Real.sqrt_nonneg _, mul_nonneg (Real.sqrt_nonneg _) (by linarith),
    mul_nonneg (Real.sqrt_nonneg _) (by linarith)⟩

/-- Witness for C2 at candidate A against the reference (`N = 10`). -/
theorem rmse_formula_spec_witness :
    ∃ r le ue, rmse listA refList = some (r, le, ue) ∧
      r = Real.sqrt (mean ((sub listA refList).map fun d => d ^ 2)) ∧
      le = r * (1 - Real.sqrt (1 - 1.96 * Real.sqrt 2 / Real.sqrt ((listA.length : ℝ) - 1))) ∧
      ue = r * (Real.sqrt (1 + 1.96 * Real.sqrt 2 / Real.sqrt ((listA.length : ℝ) - 1)) - 1) ∧
      0 ≤ r ∧ 0 ≤ le ∧ 0 ≤ ue :=
  rmse_formula_spec listA refList (by norm_num [listA, refList]) (by norm_num [listA])

/-- C3: for `N < 9` the `rmse` operation does not return a numeric triple:
the failure is reported to the caller as the typed empty result `none`
(the Python prints the insufficient-samples message and returns `None`). -/
theorem rmse_insufficient_samples (X Y : List ℝ) (h : X.length < 9) :
    rmse X Y = none := by
  rw [rmse, if_pos h]

/-- Witness for C3 at a concrete pair of length 2. -/
theorem rmse_insufficient_samples_witness : rmse [1, 2] [3, 4] = none :=
  rmse_insufficient_samples [1, 2] [3, 4] (by norm_num)

/-- C4 counterexample: at the concrete length-2 input, `mae` does not raise
any InsufficientSamples condition; it returns a computed triple (whose lower
error is the NaN square root of the negative radicand `1 - 1.96·√2`). -/
theorem mae_returns_without_guard_cex : mae [0, 1] [0, 1] = (0, none, some 0) := by
  have hneg : ¬ (0 : ℝ) ≤ 1 - kfac 2 := by
    have := one_lt_kfac (N := 2) (by norm_num) (by norm_num)
    linarith
  have hpos : (0 : ℝ) ≤ 1 + kfac 2 := by linarith [kfac_nonneg 2]
  simp [mae, fsqrt, hneg, hpos, sub, mean]

/-- C4 amended: `mae` enforces no precondition on `N`.  For any pair with
`2 ≤ N < 9` it silently returns a triple whose point estimate is the computed
mean absolute error and whose lower error is NaN; no error condition is
reported. -/
theorem mae_no_precondition (X Y : List ℝ) (h2 : 2 ≤ X.length)
    (h9 : X.length < 9) :
    (mae X Y).1 = mean ((sub X Y).map fun d => |d|) ∧ (mae X Y).2.1 = none := by
  have hneg : ¬ (0 : ℝ) ≤ 1 - kfac X.length := by
    have := one_lt_kfac h2 (by omega)
    linarith
  exact ⟨rfl, by simp [mae, fsqrt, hneg]⟩

/-- Witness for the amended C4 at a concrete pair of length 2. -/
theorem mae_no_precondition_witness :
    (mae [1, 2] [3, 4]).1 = mean ((sub [1, 2] [3, 4]).map fun d => |d|) ∧
    (mae [1, 2] [3, 4]).2.1 = none :=
  mae_no_precondition [1, 2] [3, 4] (by norm_num) (by norm_num)

/-- C5: `me` returns the pair `(mean(X-Y), 1.96*s_N/sqrt(N))` where `s_N` is
the population standard deviation (divisor `N`, not `N-1`) of the error
series about its mean, exactly as computed by the `stdevp` helper. -/
theorem me_formula_spec (X Y : List ℝ) (_h1 : 1 ≤ X.length)
    (_hlen : X.length = Y.length) :
    me X Y = (mean (sub X Y),
        1.96 * Real.sqrt (((sub X Y).map fun e => (e - mean (sub X Y)) ^ 2).sum /
          (X.length : ℝ)) / Real.sqrt (X.length : ℝ)) ∧
    stdevp (sub X Y) (mean (sub X Y)) X.length =
      Real.sqrt (((sub X Y).map fun e => (e - mean (sub X Y)) ^ 2).sum /
        (X.length : ℝ)) :=
  ⟨rfl, rfl⟩

/-- Witness for C5 at candidate A against the reference. -/
theorem me_formula_spec_witness :
    me listA refList = (mean (sub listA refList),
        1.96 * Real.sqrt (((sub listA refList).map
          fun e => (e - mean (sub listA refList)) ^ 2).sum /
            (listA.length : ℝ)) / Real.sqrt (listA.length : ℝ)) ∧
    stdevp (sub listA refList) (mean (sub listA refList)) listA.length =
      Real.sqrt (((sub listA refList).map
        fun e => (e - mean (sub listA refList)) ^ 2).sum / (listA.length : ℝ)) :=
  me_formula_spec listA refList (by norm_num [listA]) (by norm_num [listA, refList])

/-- C6 counterexample: in the scenario (B = reference, C = reference + 5,
`N = 10`), the boolean that the pairwise comparison outputs for the (B, C)
pair is False, not True: the code's boolean is `|rmse_i - rmse_j| < comp`,
which is True for indistinguishable methods (`same?`) and False here. -/
theorem scenario_bc_boolean_cex :
    rmse refList refList = some (0, 0, 0) ∧
    rmse listC refList = some (5, 5 * (1 - Real.sqrt (1 - kfac 10)),
      5 * (Real.sqrt (1 + kfac 10) - 1)) ∧
    pearson refList listC = some 1 ∧
    ¬ significance 0 5
      (compPair 0 5 0 0 (5 * (1 - Real.sqrt (1 - kfac 10)))
        (5 * (Real.sqrt (1 + kfac 10) - 1)) (pearson refList listC)) := by
  have hs : 0 < Real.sqrt (1 - kfac 10) := Real.sqrt_pos.mpr (by linarith [kfac_ten_lt_one])
  have hsle : Real.sqrt (1 - kfac 10) ≤ 1 := by
    calc Real.sqrt (1 - kfac 10) ≤ Real.sqrt 1 :=
      Real.sqrt_le_sqrt (by linarith [kfac_ten_pos])
    _ = 1 := Real.sqrt_one
  have hle0 : 0 ≤ 5 * (1 - Real.sqrt (1 - kfac 10)) := by nlinarith
  have hcomp : compPair 0 5 0 0 (5 * (1 - Real.sqrt (1 - kfac 10)))
      (5 * (Real.sqrt (1 + kfac 10) - 1)) (pearson refList listC) =
      some (5 * (1 - Real.sqrt (1 - kfac 10))) := by
    rw [eval_pearson_ref_listC]
    have hb : pairBounds 0 5 0 0 (5 * (1 - Real.sqrt (1 - kfac 10)))
        (5 * (Real.sqrt (1 + kfac 10) - 1)) = (5 * (1 - Real.sqrt (1 - kfac 10)), 0) := by
      rw [pairBounds, if_neg (by norm_num)]
    simp only [compPair, Option.map_some, hb, comp_error]
    norm_num
    rw [Real.sqrt_sq hle0]
  refine ⟨eval_rmse_ref_ref, eval_rmse_listC_ref, eval_pearson_ref_listC, ?_⟩
  rw [hcomp]
  simp only [significance]
  intro hcon
  rw [show |(0 : ℝ) - 5| = 5 by norm_num] at hcon
  nlinarith

/-- C6 amended: for the (B, C) pair the compatible error evaluates to
`5·(1 - sqrt(1 - k))`, which is strictly below the RMSE difference
`|0 - 5| = 5`; the output boolean (True means `same`, i.e. not significant)
is therefore False: the difference IS statistically significant, as the spec
intends, but the boolean value output by the code is False, not True. -/
theorem scenario_bc_significant :
    compPair 0 5 0 0 (5 * (1 - Real.sqrt (1 - kfac 10)))
      (5 * (Real.sqrt (1 + kfac 10) - 1)) (pearson refList listC) =
      some (5 * (1 - Real.sqrt (1 - kfac 10))) ∧
    5 * (1 - Real.sqrt (1 - kfac 10)) < |(0 : ℝ) - 5| := by
  have hs : 0 < Real.sqrt (1 - kfac 10) := Real.sqrt_pos.mpr (by linarith [kfac_ten_lt_one])
  have hsle : Real.sqrt (1 - kfac 10) ≤ 1 := by
    calc Real.sqrt (1 - kfac 10) ≤ Real.sqrt 1 :=
      Real.sqrt_le_sqrt (by linarith [kfac_ten_pos])
    _ = 1 := Real.sqrt_one
  have hle0 : 0 ≤ 5 * (1 - Real.sqrt (1 - kfac 10)) := by nlinarith
  constructor
  · rw [eval_pearson_ref_listC]
    have hb : pairBounds 0 5 0 0 (5 * (1 - Real.sqrt (1 - kfac 10)))
        (5 * (Real.sqrt (1 + kfac 10) - 1)) = (5 * (1 - Real.sqrt (1 - kfac 10)), 0) := by
      rw [pairBounds, if_neg (by norm_num)]
    simp only [compPair, Option.map_some, hb, comp_error]
    norm_num
    rw [Real.sqrt_sq hle0]
  · rw [show |(0 : ℝ) - 5| = 5 by norm_num]
    nlinarith

/-- C7 counterexample: for the pair (B = reference, null baseline) the
correlation is NaN (`none`) and it propagates to a NaN compatible error
without crashing, but the significance verdict is NOT flagged as
indeterminate: the IEEE comparison `|rmse_i - rmse_j| < NaN` evaluates to
the plain boolean False. -/
theorem degenerate_corr_cex :
    pearson refList (nullMethod refList) = none ∧
    rmse (nullMethod refList) refList =
      some (Real.sqrt 8.25, Real.sqrt 8.25 * (1 - Real.sqrt (1 - kfac 10)),
        Real.sqrt 8.25 * (Real.sqrt (1 + kfac 10) - 1)) ∧
    compPair 0 (Real.sqrt 8.25) 0 0
      (Real.sqrt 8.25 * (1 - Real.sqrt (1 - kfac 10)))
      (Real.sqrt 8.25 * (Real.sqrt (1 + kfac 10) - 1))
      (pearson refList (nullMethod refList)) = none ∧
    ¬ significance 0 (Real.sqrt 8.25)
      (compPair 0 (Real.sqrt 8.25) 0 0
        (Real.sqrt 8.25 * (1 - Real.sqrt (1 - kfac 10)))
        (Real.sqrt 8.25 * (Real.sqrt (1 + kfac 10) - 1))
        (pearson refList (nullMethod refList))) := by
  refine ⟨eval_pearson_ref_null, eval_rmse_null_ref, ?_, ?_⟩
  · rw [eval_pearson_ref_null]; rfl
  · rw [eval_pearson_ref_null]
    simp [significance, compPair]

/-- C7 amended: whenever one series of a pair is constant (zero variance, as
the null baseline always is), the Pearson correlation is NaN (`none`); the
NaN propagates through the compatible-error formula without crashing, and
the downstream significance verdict evaluates to the boolean False (an IEEE
comparison with NaN is false) instead of being flagged as indeterminate. -/
theorem degenerate_corr_propagates (X Y : List ℝ) (ri rj li ui lj uj : ℝ)
    (hY : ∀ y ∈ Y, y = mean Y) :
    pearson X Y = none ∧
    compPair ri rj li ui lj uj (pearson X Y) = none ∧
    ¬ significance ri rj (compPair ri rj li ui lj uj (pearson X Y)) := by
  have hsyy : ((Y.map fun b => (b - mean Y) ^ 2).sum) = 0 := by
    apply List.sum_eq_zero
    intro x hx
    rcases List.mem_map.mp hx with ⟨b, hb, rfl⟩
    rw [hY b hb]; ring
  have hp : pearson X Y = none := by
    rw [pearson, if_pos (by rw [hsyy, mul_zero])]
  refine ⟨hp, by rw [hp]; rfl, by rw [hp]; simp [significance, compPair]⟩

/-- Witness for the amended C7 at the concrete constant series `[3, 3]`. -/
theorem degenerate_corr_propagates_witness :
    pearson [1, 2] [3, 3] = none ∧
    compPair 1 2 3 4 5 6 (pearson [1, 2] [3, 3]) = none ∧
    ¬ significance 1 2 (compPair 1 2 3 4 5 6 (pearson [1, 2] [3, 3])) :=
  degenerate_corr_propagates [1, 2] [3, 3] 1 2 3 4 5 6
    (by intro y hy; fin_cases hy <;> norm_num [mean])

/-- C8: for equal-length series with `N ≥ 9`, the RMSE point estimate is at
least the MAE point estimate (quadratic mean dominates arithmetic mean of
absolute values). -/
theorem rmse_ge_mae (X Y : List ℝ) (_hlen : X.length = Y.length)
    (h9 : 9 ≤ X.length) :
    ∃ r le ue, rmse X Y = some (r, le, ue) ∧ (mae X Y).1 ≤ r := by
  refine ⟨_, _, _, by rw [rmse, if_neg (not_lt.mpr h9)], ?_⟩
  exact mean_abs_le_sqrt_mean_sq (sub X Y)

/-- Witness for C8 at candidate C against the reference. -/
theorem rmse_ge_mae_witness :
    ∃ r le ue, rmse listC refList = some (r, le, ue) ∧ (mae listC refList).1 ≤ r :=
  rmse_ge_mae listC refList (by norm_num [listC, refList]) (by norm_num [listC])

/-- C9 counterexample: in the scenario with candidate A = reference + 1, the
`me` half-width is 0 (the error series is constant, so the population
standard deviation vanishes), not positive as claimed; and the lower error
of `rmse` is `1 - sqrt(1 - k) ≠ 0`, not 0 as claimed. -/
theorem scenario_a_cex :
    me listA refList = (1, 0) ∧
    rmse listA refList = some (1, 1 - Real.sqrt (1 - kfac 10),
      Real.sqrt (1 + kfac 10) - 1) ∧
    1 - Real.sqrt (1 - kfac 10) ≠ 0 := by
  have hlt : Real.sqrt (1 - kfac 10) < 1 := by
    rw [Real.sqrt_lt' (by norm_num : (0 : ℝ) < 1)]
    nlinarith [kfac_ten_pos]
  exact ⟨eval_me_listA_ref, eval_rmse_listA_ref, by linarith⟩

/-- C9 amended: in the scenario with candidate A = reference + 1 (`N = 10`),
`rmse(A, ref) = (1, le, ue)` with `le = 1 - sqrt(1-k) > 0` and
`ue = sqrt(1+k) - 1 > 0`; `mae(A, ref)` has the same point estimate 1 and
the same positive bounds; and `me(A, ref) = (1, 0)` with half-width exactly
0 because the residuals are constant. -/
theorem scenario_a_metrics :
    rmse listA refList = some (1, 1 - Real.sqrt (1 - kfac 10),
      Real.sqrt (1 + kfac 10) - 1) ∧
    0 < 1 - Real.sqrt (1 - kfac 10) ∧
    0 < Real.sqrt (1 + kfac 10) - 1 ∧
    mae listA refList =
      (1, some (1 - Real.sqrt (1 - kfac 10)), some (Real.sqrt (1 + kfac 10) - 1)) ∧
    me listA refList = (1, 0) := by
  have hlt : Real.sqrt (1 - kfac 10) < 1 := by
    rw [Real.sqrt_lt' (by norm_num : (0 : ℝ) < 1)]
    nlinarith [kfac_ten_pos]
  have hgt : 1 < Real.sqrt (1 + kfac 10) := by
    rw [Real.lt_sqrt (by norm_num : (0 : ℝ) ≤ 1)]
    nlinarith [kfac_ten_pos]
  refine ⟨eval_rmse_listA_ref, by linarith, by linarith, eval_mae_listA_ref,
    eval_me_listA_ref⟩

/-- C10: for `2 ≤ N ≤ 8` the lower-error radicand `1 - k` of `mae` is
negative, so the lower error is the NaN square root of a negative number
(`none`), while the point estimate and the upper error are finite real
values; no error condition is reported to the caller. -/
theorem mae_small_n_nan (X Y : List ℝ) (h2 : 2 ≤ X.length) (h8 : X.length ≤ 8) :
    1 - kfac X.length < 0 ∧
    (mae X Y).2.1 = none ∧
    (mae X Y).2.2 = some ((mae X Y).1 * (Real.sqrt (1 + kfac X.length) - 1)) := by
  have hk := one_lt_kfac h2 h8
  have hneg : ¬ (0 : ℝ) ≤ 1 - kfac X.length := by linarith
  have hpos : (0 : ℝ) ≤ 1 + kfac X.length := by linarith [kfac_nonneg X.length]
  exact ⟨by linarith, by simp [mae, fsqrt, hneg], by simp [mae, fsqrt, hpos]⟩

/-- Witness for C10 at a concrete pair of length 2. -/
theorem mae_small_n_nan_witness :
    1 - kfac ([0, 1] : List ℝ).length < 0 ∧
    (mae [0, 1] [2, 3]).2.1 = none ∧
    (mae [0, 1] [2, 3]).2.2 =
      some ((mae [0, 1] [2, 3]).1 * (Real.sqrt (1 + kfac ([0, 1] : List ℝ).length) - 1)) :=
  mae_small_n_nan [0, 1] [2, 3] (by norm_num) (by norm_num)

end

end Statsig
